import Mathlib

/-!
# SNS message framing (`include/sns/msg.h`) and the collision watchdog (`src/bin/sns-watchdog.c`)

A shallow embedding of the C sources for an LP64 target.

* `size_t` and `uint64_t` values are natural numbers below `2^64`; every `size_t`
  operation of the source is written with its reduction modulo `2^64`.
* A message is the byte memory reachable from the message pointer: a map from byte
  offsets to byte values.  Scalar members are stored in the target's native
  (little-endian) byte order.
* `double` values are represented by their 64-bit patterns; `0.0` is the pattern `0`.
* The constants `SNS_HOSTNAME_LEN` and `SNS_IDENT_LEN` are defined outside `msg.h`; the
  layouts take them as parameters.
-/

namespace SNS

/-! ## Machine arithmetic -/

/-- Number of values of `size_t` / `uint64_t` (`SIZE_MAX + 1`). -/
def SIZE_MOD : Nat := 2 ^ 64

/-- Number of non-negative values of `ptrdiff_t` (`PTRDIFF_MAX + 1`): no object type is
larger than `PTRDIFF_MAX` bytes. -/
def PTRDIFF_MOD : Nat := 2 ^ 63

/-- Addition of two `size_t` values -/
def size_add (a b : Nat) : Nat := (a + b) % SIZE_MOD

/-- Subtraction of two `size_t` values -/
def size_sub (a b : Nat) : Nat := (a + (SIZE_MOD - b % SIZE_MOD)) % SIZE_MOD

/-- Multiplication of two `size_t` values -/
def size_mul (a b : Nat) : Nat := (a * b) % SIZE_MOD

/-! ## Byte memory -/

/-- Memory seen from a message pointer: byte offset to byte value -/
abbrev Mem := Nat → Nat

/-- The call `memset(p, c, len)` on the memory at `p` -/
def memset (m : Mem) (c len : Nat) : Mem :=
  fun a => if a < len then c % 256 else m a

/-- Store of a `w`-byte scalar `v` at byte offset `off` -/
def store (m : Mem) (off w v : Nat) : Mem :=
  fun a => if off ≤ a ∧ a < off + w then (v / 256 ^ (a - off)) % 256 else m a

/-- Load of a `w`-byte scalar from byte offset `off` -/
def load (m : Mem) (off : Nat) : Nat → Nat
  | 0 => 0
  | w + 1 => m off % 256 + 256 * load m (off + 1) w

/-! ## Vararray messages: `SNS_DEF_MSG_VAR( type, var )` -/

/-- Layout of one `struct type { struct sns_msg_header header; ...; count n; elem var[1]; }`
as the compiler lays it out: what `sizeof` and `offsetof` give for it. -/
structure VarLayout where
  /-- The value of `sizeof(msg->header)`; the header is the first member, at offset 0 -/
  sizeof_header : Nat
  /-- The value of `offsetof(struct type, n)`; the count is 8 bytes wide -/
  offsetof_n : Nat
  /-- The value of `offsetof(struct type, var)` -/
  offsetof_var : Nat
  /-- The value of `sizeof(msg->var[0])` -/
  sizeof_var : Nat
  /-- The value of `sizeof(*msg)` -/
  sizeof_msg : Nat

/-- What the compiler guarantees of such a layout: members in declaration order without
overlap, a non-empty element, the one-element array inside the struct, and an object size
of at most `PTRDIFF_MAX`. -/
def VarLayout.wf (T : VarLayout) : Prop :=
  T.sizeof_header ≤ T.offsetof_n ∧ T.offsetof_n + 8 ≤ T.offsetof_var ∧
  0 < T.sizeof_var ∧ T.offsetof_var + T.sizeof_var ≤ T.sizeof_msg ∧ T.sizeof_msg < PTRDIFF_MOD

instance (T : VarLayout) : Decidable T.wf := by
  unfold VarLayout.wf; infer_instance

/-- The function `type ## _size_n( size_t n )`:
`sizeof(*msg) - sizeof(msg->var[0]) + n*sizeof(msg->var[0])` in `size_t`. -/
def size_n (T : VarLayout) (n : Nat) : Nat :=
  size_add (size_sub T.sizeof_msg T.sizeof_var) (size_mul n T.sizeof_var)

/-- The member `msg->n` -/
def msg_n (T : VarLayout) (msg : Mem) : Nat := load msg T.offsetof_n 8

/-- The function `type ## _size( struct type *msg )`: `type ## _size_n( msg->n )` -/
def size (T : VarLayout) (msg : Mem) : Nat := size_n T (msg_n T msg)

/-- The macro `SNS_MSG_CHECK_SIZE( type, pointer, frame_size )`, a C `int`:
`(frame_size) < size_n(0) || (frame_size) < size(pointer)`. -/
def SNS_MSG_CHECK_SIZE (T : VarLayout) (pointer : Mem) (frame_size : Nat) : Nat :=
  if frame_size < size_n T 0 ∨ frame_size < size T pointer then 1 else 0

/-- The call `sns_msg_header_fill( &msg->header )`.  The function is declared in `msg.h`
and defined elsewhere; `stamp` stands for its body: given the memory at the message pointer
it yields the header bytes it leaves behind.  Only bytes of the header can change. -/
def sns_msg_header_fill (T : VarLayout) (stamp : Mem → Mem) (msg : Mem) : Mem :=
  fun a => if a < T.sizeof_header then stamp msg a % 256 else msg a

/-- The function `type ## _init( struct type *msg, size_t n )`:
`memset(msg, 0, size_n(n)); sns_msg_header_fill( &msg->header ); msg->n = n;` -/
def init (T : VarLayout) (stamp : Mem → Mem) (msg : Mem) (n : Nat) : Mem :=
  let m1 := memset msg 0 (size_n T n)
  let m2 := sns_msg_header_fill T stamp m1
  store m2 T.offsetof_n 8 n

/-- Outcome of a heap allocation: the byte count passed to `malloc` and the memory at the
returned pointer. -/
structure Allocated where
  /-- The argument of the `malloc` call -/
  request : Nat
  /-- The memory at the returned message pointer -/
  msg : Mem

/-- The function `type ## _heap_alloc( size_t n )`:
`msg = malloc( size_n(n) ); init(msg,n); return msg;`.
`malloc` gives the (indeterminate) contents of the block returned for a request. -/
def heap_alloc (T : VarLayout) (stamp : Mem → Mem) (malloc : Nat → Mem) (n : Nat) :
    Allocated :=
  let sz := size_n T n
  { request := sz, msg := init T stamp (malloc sz) n }

/-- Modelled from the spec: the pooled arena `struct aa_mem_region` of the amino library
(a bump allocator whose release rewinds the high-water mark).  `live` lists the sizes of the
live blocks, most recent first; `fresh d sz` is the (indeterminate) contents of a block of
`sz` bytes handed out when `d` blocks are live. -/
structure aa_mem_region where
  /-- Sizes of the live blocks, most recent first -/
  live : List Nat
  /-- Contents of a newly handed out block -/
  fresh : Nat → Nat → Mem

/-- Modelled from the spec: `aa_mem_region_alloc( reg, size )`.  Returns the region, the
handle of the new block (the number of blocks below it) and the block's memory. -/
def aa_mem_region_alloc (reg : aa_mem_region) (sz : Nat) : aa_mem_region × Nat × Mem :=
  ({ reg with live := sz :: reg.live }, reg.live.length, reg.fresh reg.live.length sz)

/-- Modelled from the spec: `aa_mem_region_pop( reg, ptr )`: releases the block `ptr` and
every block allocated after it. -/
def aa_mem_region_pop (reg : aa_mem_region) (ptr : Nat) : aa_mem_region :=
  { reg with live := reg.live.drop (reg.live.length - ptr) }

/-- The function `type ## _region_alloc( struct aa_mem_region *reg, size_t n )`:
`msg = aa_mem_region_alloc( reg, size_n(n) ); init(msg,n); return msg;` -/
def region_alloc (T : VarLayout) (stamp : Mem → Mem) (reg : aa_mem_region) (n : Nat) :
    aa_mem_region × Nat × Mem :=
  let r := aa_mem_region_alloc reg (size_n T n)
  (r.1, r.2.1, init T stamp r.2.2 n)

/-- The function `type ## _local_alloc( size_t n )`:
`return region_alloc( aa_mem_region_local_get(), n );`.
The thread-local region is passed as `loc`. -/
def local_alloc (T : VarLayout) (stamp : Mem → Mem) (loc : aa_mem_region) (n : Nat) :
    aa_mem_region × Nat × Mem :=
  region_alloc T stamp loc n

/-! ## Concrete layouts -/

/-- The value of `sizeof(struct sns_msg_header)`: `time` (`sec` at 0, `dur_nsec` at 8, `nsec`
at 16, padded to 24), `from_pid` at 24, `seq` at 32, `from_host` at 40 and `ident` after it,
rounded up to the 8-byte alignment.  `H` is `SNS_HOSTNAME_LEN`, `I` is `SNS_IDENT_LEN`. -/
def sizeof_sns_msg_header (H I : Nat) : Nat := (40 + H + I + 7) / 8 * 8

/-- Layout of `struct sns_msg_log`: `int priority; size_t n; char text[1];` -/
def sns_msg_log (H I : Nat) : VarLayout :=
  let h := sizeof_sns_msg_header H I
  { sizeof_header := h, offsetof_n := h + 8, offsetof_var := h + 16, sizeof_var := 1,
    sizeof_msg := h + 24 }

/-- Layout of `struct sns_msg_vector`: `uint64_t n; sns_real_t x[1];` -/
def sns_msg_vector (H I : Nat) : VarLayout :=
  let h := sizeof_sns_msg_header H I
  { sizeof_header := h, offsetof_n := h, offsetof_var := h + 8, sizeof_var := 8,
    sizeof_msg := h + 16 }

/-- Layout of `struct sns_msg_tf`: `uint64_t n; sns_tf tf[1];`.  The element type `sns_tf`
is `struct aa_tf_qv` of the amino library, a struct of doubles; `sizeof_tf` is its size. -/
def sns_msg_tf (H I sizeof_tf : Nat) : VarLayout :=
  let h := sizeof_sns_msg_header H I
  { sizeof_header := h, offsetof_n := h, offsetof_var := h + 8, sizeof_var := sizeof_tf,
    sizeof_msg := h + 8 + sizeof_tf }

/-- Layout of `struct sns_msg_tf_dx`: `uint64_t n; sns_tf_dx tf_dx[1];`.  The element type
`sns_tf_dx` is `struct aa_tf_qv_dx` of the amino library, a struct of doubles; `sizeof_tf_dx`
is its size. -/
def sns_msg_tf_dx (H I sizeof_tf_dx : Nat) : VarLayout :=
  let h := sizeof_sns_msg_header H I
  { sizeof_header := h, offsetof_n := h, offsetof_var := h + 8, sizeof_var := sizeof_tf_dx,
    sizeof_msg := h + 8 + sizeof_tf_dx }

/-- Layout of `struct sns_msg_motor_ref`: `enum sns_motor_mode mode; uint64_t n;
sns_real_t u[1];` -/
def sns_msg_motor_ref (H I : Nat) : VarLayout :=
  let h := sizeof_sns_msg_header H I
  { sizeof_header := h, offsetof_n := h + 8, offsetof_var := h + 16, sizeof_var := 8,
    sizeof_msg := h + 24 }

/-- Layout of `struct sns_msg_motor_state`: `enum sns_motor_mode mode; uint64_t n;
struct { sns_real_t pos; sns_real_t vel; } X[1];` -/
def sns_msg_motor_state (H I : Nat) : VarLayout :=
  let h := sizeof_sns_msg_header H I
  { sizeof_header := h, offsetof_n := h + 8, offsetof_var := h + 16, sizeof_var := 16,
    sizeof_msg := h + 32 }

/-- Layout of `struct sns_msg_joystick`: `uint64_t buttons; uint64_t n;
sns_real_t axis[1];` -/
def sns_msg_joystick (H I : Nat) : VarLayout :=
  let h := sizeof_sns_msg_header H I
  { sizeof_header := h, offsetof_n := h + 8, offsetof_var := h + 16, sizeof_var := 8,
    sizeof_msg := h + 24 }

/-! ## Matrix messages -/

/-- Layout of `struct sns_msg_matrix { header; uint64_t rows; uint64_t cols;
sns_real_t x[1]; }` -/
structure MatLayout where
  /-- The value of `offsetof(struct sns_msg_matrix, rows)` -/
  offsetof_rows : Nat
  /-- The value of `offsetof(struct sns_msg_matrix, cols)` -/
  offsetof_cols : Nat
  /-- The value of `sizeof(msg->x[0])` -/
  sizeof_x : Nat
  /-- The value of `sizeof(*msg)` -/
  sizeof_msg : Nat

/-- What the compiler guarantees of the matrix layout -/
def MatLayout.wf (M : MatLayout) : Prop :=
  M.offsetof_rows + 8 ≤ M.offsetof_cols ∧ 0 < M.sizeof_x ∧
  M.offsetof_cols + 8 + M.sizeof_x ≤ M.sizeof_msg ∧ M.sizeof_msg < PTRDIFF_MOD

instance (M : MatLayout) : Decidable M.wf := by
  unfold MatLayout.wf; infer_instance

/-- Layout of `struct sns_msg_matrix` for header string lengths `H` and `I` -/
def sns_msg_matrix (H I : Nat) : MatLayout :=
  let h := sizeof_sns_msg_header H I
  { offsetof_rows := h, offsetof_cols := h + 8, sizeof_x := 8, sizeof_msg := h + 24 }

/-- The function `sns_msg_matrix_size_mn( size_t rows, size_t cols )`:
`sizeof(*msg) - sizeof(msg->x[0]) + sizeof(msg->x[0])*rows*cols` in `size_t`. -/
def sns_msg_matrix_size_mn (M : MatLayout) (rows cols : Nat) : Nat :=
  size_add (size_sub M.sizeof_msg M.sizeof_x) (size_mul (size_mul M.sizeof_x rows) cols)

/-- The function `sns_msg_matrix_size( msg )`: `size_mn(msg->rows, msg->cols)` -/
def sns_msg_matrix_size (M : MatLayout) (msg : Mem) : Nat :=
  sns_msg_matrix_size_mn M (load msg M.offsetof_rows 8) (load msg M.offsetof_cols 8)

/-! ## The watchdog: `src/bin/sns-watchdog.c` -/

/-- The C type `struct timespec` -/
structure timespec where
  /-- Seconds -/
  tv_sec : Int
  /-- Nanoseconds -/
  tv_nsec : Int

/-- The status `ACH_OK` of `enum ach_status` -/
def ACH_OK : Nat := 0

/-- The syslog priority `LOG_ERR` -/
def LOG_ERR : Nat := 3

/-- The syslog priority `LOG_WARNING` -/
def LOG_WARNING : Nat := 4

/-- The syslog priority `LOG_DEBUG` -/
def LOG_DEBUG : Nat := 7

/-- The enumerator `SNS_MOTOR_MODE_HALT` -/
def SNS_MOTOR_MODE_HALT : Nat := 1

/-- The enumerator `SNS_MOTOR_MODE_POS` -/
def SNS_MOTOR_MODE_POS : Nat := 2

/-- The enumerator `SNS_MOTOR_MODE_VEL` -/
def SNS_MOTOR_MODE_VEL : Nat := 3

/-- The enumerator `SNS_MOTOR_MODE_TORQ` -/
def SNS_MOTOR_MODE_TORQ : Nat := 4

/-- Conversion of a `size_t` to `int`, as in `(int)n_q`: the low 32 bits, two's complement -/
def to_int (x : Nat) : Int :=
  if x % 2 ^ 32 < 2 ^ 31 then (x % 2 ^ 32 : Nat) else (x % 2 ^ 32 : Nat) - 2 ^ 32

/-- Conversion of a `size_t` to `uint32_t`, as in `(uint32_t)cx->n_q` -/
def to_uint32 (x : Nat) : Nat := x % 2 ^ 32

/-- The 64-bit two's complement pattern of an `int64_t` -/
def int64_bits (x : Int) : Nat := (x % 2 ^ 64).toNat

/-- What a handler does to the outside, in program order.  Output to `stdout` is not
recorded. -/
inductive Event where
  /-- A call `SNS_LOG( priority, ... )` -/
  | log (priority : Nat)
  /-- A read of the element `msg->u[i]` of a motor-reference message -/
  | read_u (i : Nat)
  /-- A read of the element `msg->X[i]` of a motor-state message -/
  | read_X (i : Nat)
  /-- A call `aa_mem_region_local_alloc( size )` -/
  | local_alloc (size : Nat)
  /-- A call `aa_mem_region_local_pop( ptr )`, `ptr` being the handle of the block -/
  | local_pop (ptr : Nat)
  /-- A frame of `size` bytes put on the channel `ref_out` -/
  | put (frame : Mem) (size : Nat)

/-- What the handlers take from outside the program: the build constants, the clock, the
scene graph with its collision checker, BLAS, the header stamp and the transport. -/
structure Env where
  /-- The constant `SNS_HOSTNAME_LEN` -/
  SNS_HOSTNAME_LEN : Nat
  /-- The constant `SNS_IDENT_LEN` -/
  SNS_IDENT_LEN : Nat
  /-- What `clock_gettime` returns in `test_for_collisions` -/
  now_collision : timespec
  /-- What `clock_gettime` returns in `send_ref` -/
  now_send : timespec
  /-- What `aa_rx_sg_frame_count( scenegraph )` returns -/
  frame_count : Nat
  /-- What `aa_rx_sg_config_count( scenegraph )` returns -/
  config_count : Nat
  /-- The double `alpha*x + y` that `cblas_daxpy` computes for `alpha = 2*dt`, on patterns -/
  axpy : Nat → Nat → Nat
  /-- The outcome of `aa_rx_cl_check` for the transforms `aa_rx_sg_tf` computes from the
  joint positions it is given -/
  cl_check : (Nat → Nat) → Bool
  /-- The body of `sns_msg_header_fill` -/
  stamp : Mem → Mem
  /-- What putting a frame on `ref_out` returns -/
  put_status : Nat

/-- The layout of `struct sns_msg_motor_ref` in the environment -/
def Env.motor_ref (E : Env) : VarLayout := sns_msg_motor_ref E.SNS_HOSTNAME_LEN E.SNS_IDENT_LEN

/-- The layout of `struct sns_msg_motor_state` in the environment -/
def Env.motor_state (E : Env) : VarLayout :=
  sns_msg_motor_state E.SNS_HOSTNAME_LEN E.SNS_IDENT_LEN

/-- The value of `offsetof(struct sns_msg_motor_ref, mode)` and of
`offsetof(struct sns_msg_motor_state, mode)`: the 4-byte enum follows the header. -/
def Env.offsetof_mode (E : Env) : Nat := sizeof_sns_msg_header E.SNS_HOSTNAME_LEN E.SNS_IDENT_LEN

/-- The state outside the context that the handlers change: the thread-local memory region
and the record of effects, oldest first. -/
structure World where
  /-- The region behind `aa_mem_region_local_get()` -/
  loc : aa_mem_region
  /-- The effects so far -/
  trace : List Event

/-- Appends one effect to the record -/
def World.emit (w : World) (e : Event) : World := { w with trace := w.trace ++ [e] }

/-- The call `aa_mem_region_local_alloc( size )`: the world, the handle and the block -/
def aa_mem_region_local_alloc (w : World) (sz : Nat) : World × Nat × Mem :=
  let r := aa_mem_region_alloc w.loc sz
  ({ loc := r.1, trace := w.trace ++ [Event.local_alloc sz] }, r.2.1, r.2.2)

/-- The call `aa_mem_region_local_pop( ptr )` -/
def aa_mem_region_local_pop (w : World) (ptr : Nat) : World :=
  { loc := aa_mem_region_pop w.loc ptr, trace := w.trace ++ [Event.local_pop ptr] }

/-- The members of `struct cx` that the handlers use.  The arrays `q_act`, `dq_act`, `q_ref`
and `dq_ref` are maps from index to `double`. -/
structure cx where
  /-- The member `t` -/
  t : timespec
  /-- The member `n_q`, a `size_t` -/
  n_q : Nat
  /-- The array `q_act` -/
  q_act : Nat → Nat
  /-- The array `dq_act` -/
  dq_act : Nat → Nat
  /-- The array `q_ref` -/
  q_ref : Nat → Nat
  /-- The array `dq_ref` -/
  dq_ref : Nat → Nat
  /-- The member `have_q_ref` -/
  have_q_ref : Int
  /-- The member `have_dq_ref` -/
  have_dq_ref : Int

/-- The member `msg->mode` of a motor message -/
def msg_mode (E : Env) (msg : Mem) : Nat := load msg E.offsetof_mode 4

/-- The element `msg->u[i]` of a motor-reference message -/
def msg_u (E : Env) (msg : Mem) (i : Nat) : Nat := load msg (E.motor_ref.offsetof_var + 8 * i) 8

/-- The member `msg->X[i].pos` of a motor-state message -/
def msg_X_pos (E : Env) (msg : Mem) (i : Nat) : Nat :=
  load msg (E.motor_state.offsetof_var + 16 * i) 8

/-- The member `msg->X[i].vel` of a motor-state message -/
def msg_X_vel (E : Env) (msg : Mem) (i : Nat) : Nat :=
  load msg (E.motor_state.offsetof_var + 16 * i + 8) 8

/-- Modelled from the spec: `sns_msg_motor_ref_check_size( msg, msg_size )`, which the
watchdog calls and `msg.h` does not define; the size check of the framing layer
(`validate_received_size`), which `msg.h` gives as the macro `SNS_MSG_CHECK_SIZE`. -/
def sns_msg_motor_ref_check_size (E : Env) (msg : Mem) (msg_size : Nat) : Nat :=
  SNS_MSG_CHECK_SIZE E.motor_ref msg msg_size

/-- Modelled from the spec: `sns_msg_motor_state_check_size( msg, msg_size )`, as for the
motor reference. -/
def sns_msg_motor_state_check_size (E : Env) (msg : Mem) (msg_size : Nat) : Nat :=
  SNS_MSG_CHECK_SIZE E.motor_state msg msg_size

/-- Modelled from the spec: `sns_msg_set_time( header, now, duration_ns )`, declared in
`msg.h` and defined elsewhere: sets the creation time (`time.sec`, `time.nsec`) to `now` and
the validity duration (`time.dur_nsec`) to `duration_ns`. -/
def sns_msg_set_time (msg : Mem) (now : timespec) (duration_ns : Int) : Mem :=
  let m1 := store msg 0 8 (int64_bits now.tv_sec)
  let m2 := store m1 16 4 (int64_bits now.tv_nsec)
  store m2 8 8 (int64_bits duration_ns)

/-- The call `memcpy( dst + off, src, len )` where `src` is an array of doubles -/
def memcpy_doubles (dst : Mem) (off : Nat) (src : Nat → Nat) (len : Nat) : Mem :=
  fun a => if off ≤ a ∧ a < off + len
    then (src ((a - off) / 8) / 256 ^ ((a - off) % 8)) % 256 else dst a

/-- Modelled from the spec: `sns_msg_motor_ref_put( chan, msg )`, which `msg.h` does not
define: hands the exact-sized buffer, `size(msg)` bytes, to the transport. -/
def sns_msg_motor_ref_put (E : Env) (w : World) (msg : Mem) : World × Nat :=
  (w.emit (Event.put msg (size E.motor_ref msg)), E.put_status)

/-- The BLAS call `cblas_daxpy( n, alpha, x, 1, y, 1 )` for `alpha = 2*dt`: the array `y`
afterwards, `y[i] = alpha*x[i] + y[i]` for the indices below `n`. -/
def cblas_daxpy (E : Env) (n : Int) (x y : Nat → Nat) : Nat → Nat :=
  fun i => if (i : Int) < n then E.axpy (x i) (y i) else y i

/-- The function `test_for_collisions( struct cx *cx )` -/
def test_for_collisions (E : Env) (c : cx) (w : World) : Int × cx × World :=
  -- clock_gettime(&now); dt = 0.01; cx->t = now;
  let c1 := { c with t := E.now_collision }
  let n_q := c.n_q
  -- q_act_copy = aa_mem_region_local_alloc(sizeof(cx->q_act[0]) * n_q); memcpy(...)
  let bytes := size_mul 8 n_q
  let a1 := aa_mem_region_local_alloc w bytes
  let q_act_copy : Nat → Nat := fun i => if i < bytes / 8 then c1.q_act i else load a1.2.2 (8 * i) 8
  -- cblas_daxpy((int)n_q, 2*dt, cx->dq_act, 1, cx->q_act, 1);
  let c2 := { c1 with q_act := cblas_daxpy E (to_int n_q) c1.dq_act c1.q_act }
  -- cx->have_q_ref = 0; cx->have_dq_ref = 0;
  let c3 := { c2 with have_q_ref := 0, have_dq_ref := 0 }
  -- n_tf = aa_rx_sg_frame_count(scenegraph);
  -- if( n_q != aa_rx_sg_config_count(scenegraph) ) printf(...);   (output only)
  -- TF = aa_mem_region_local_alloc(14*n_tf*sizeof(double));
  let n_tf := E.frame_count
  let a2 := aa_mem_region_local_alloc a1.1 (size_mul (size_mul 14 n_tf) 8)
  -- memcpy(cx->q_act, q_act_copy, sizeof(cx->q_act[0]) * n_q), on both paths
  let c4 := { c3 with q_act := fun i => if i < bytes / 8 then q_act_copy i else c3.q_act i }
  -- aa_mem_region_local_pop(TF); aa_mem_region_local_pop(q_act_copy);
  let w4 := aa_mem_region_local_pop (aa_mem_region_local_pop a2.1 a2.2.1) a1.2.1
  if E.cl_check c3.q_act then (1, c4, w4) else (0, c4, w4)

/-- The function `send_ref( struct cx *cx )` -/
def send_ref (E : Env) (c : cx) (w : World) : cx × World :=
  -- msg = sns_msg_motor_ref_local_alloc((uint32_t)cx->n_q);
  let r := local_alloc E.motor_ref E.stamp w.loc (to_uint32 c.n_q)
  let w1 : World :=
    { loc := r.1, trace := w.trace ++ [Event.local_alloc (size_n E.motor_ref (to_uint32 c.n_q))] }
  -- clock_gettime(&now); sns_msg_set_time( &msg->header, &now, 1e9 );
  let m1 := sns_msg_set_time r.2.2 E.now_send 1000000000
  -- msg->mode = SNS_MOTOR_MODE_HALT;
  let m2 := store m1 E.offsetof_mode 4 SNS_MOTOR_MODE_HALT
  -- for(i < cx->n_q) cx->dq_ref[i] = 0.0;
  let c1 := { c with dq_ref := fun i => if i < c.n_q then 0 else c.dq_ref i }
  -- AA_MEM_CPY(msg->u, cx->dq_ref, cx->n_q);
  let m3 := memcpy_doubles m2 E.motor_ref.offsetof_var c1.dq_ref (size_mul 8 c.n_q)
  -- r = sns_msg_motor_ref_put(&cx->ref_out, msg); if( ACH_OK != r ) SNS_LOG( LOG_ERR, ... )
  let p := sns_msg_motor_ref_put E w1 m3
  let w2 := if p.2 ≠ ACH_OK then p.1.emit (Event.log LOG_ERR) else p.1
  -- aa_mem_region_local_pop(msg);
  (c1, aa_mem_region_local_pop w2 r.2.1)

/-- The function `handle_ref_in( void *cx, void *msg, size_t msg_size )` -/
def handle_ref_in (E : Env) (c : cx) (msg : Mem) (msg_size : Nat) (w : World) :
    Nat × cx × World :=
  if sns_msg_motor_ref_check_size E msg msg_size ≠ 0 then
    (ACH_OK, c, w.emit (Event.log LOG_ERR))
  else
    let w1 := w.emit (Event.log LOG_DEBUG)
    let s : cx × World :=
      if msg_mode E msg = SNS_MOTOR_MODE_POS then
        ({ c with q_ref := fun i => if i < c.n_q then msg_u E msg i else c.q_ref i,
                  have_q_ref := 1 },
         { w1 with trace := w1.trace ++ (List.range c.n_q).map Event.read_u })
      else if msg_mode E msg = SNS_MOTOR_MODE_VEL then
        ({ c with dq_ref := fun i => if i < c.n_q then msg_u E msg i else c.dq_ref i,
                  have_dq_ref := 1 },
         { w1 with trace := w1.trace ++ (List.range c.n_q).map Event.read_u })
      else
        (c, w1.emit (Event.log LOG_WARNING))
    let t := test_for_collisions E s.1 s.2
    if t.1 ≠ 0 then
      let r := send_ref E t.2.1 t.2.2
      (ACH_OK, r.1, r.2)
    else
      (ACH_OK, t.2.1, t.2.2)

/-- The function `handle_state( void *cx, void *msg, size_t msg_size )`.  The loop bound
`msg->header.n` is the declared count of the message, the member `n`. -/
def handle_state (E : Env) (c : cx) (msg : Mem) (msg_size : Nat) (w : World) :
    Nat × cx × World :=
  if sns_msg_motor_state_check_size E msg msg_size ≠ 0 then
    (ACH_OK, c, w.emit (Event.log LOG_ERR))
  else
    let w1 := w.emit (Event.log LOG_DEBUG)
    let k := min c.n_q (msg_n E.motor_state msg)
    (ACH_OK,
     { c with q_act := fun i => if i < k then msg_X_pos E msg i else c.q_act i,
              dq_act := fun i => if i < k then msg_X_vel E msg i else c.dq_act i },
     { w1 with trace := w1.trace ++ (List.range k).map Event.read_X })

/-! ## Header time: `sns_msg_get_time`, `sns_msg_is_expired` -/

/-- The `int64_t` value of a 64-bit two's complement pattern -/
def to_int64 (x : Nat) : Int :=
  if x % 2 ^ 64 < 2 ^ 63 then (x % 2 ^ 64 : Nat) else (x % 2 ^ 64 : Nat) - 2 ^ 64

/-- The function `sns_msg_get_time( struct sns_msg_header *msg )`:
`ts.tv_sec = msg->time.sec; ts.tv_nsec = msg->time.nsec; return ts;` -/
def sns_msg_get_time (msg : Mem) : timespec :=
  { tv_sec := to_int64 (load msg 0 8), tv_nsec := (load msg 16 4 : Nat) }

/-- The member `msg->time.dur_nsec`, an `int64_t` -/
def msg_dur_nsec (msg : Mem) : Int := to_int64 (load msg 8 8)

/-- An instant as its count of nanoseconds -/
def timespec_ns (t : timespec) : Int := t.tv_sec * 1000000000 + t.tv_nsec

/-- Modelled from the spec: `sns_msg_is_expired( header, now )`, declared in `msg.h` and
defined elsewhere: true iff `now >= creation_time + validity_duration_ns`. -/
def sns_msg_is_expired (msg : Mem) (now : timespec) : Bool :=
  decide (timespec_ns (sns_msg_get_time msg) + msg_dur_nsec msg ≤ timespec_ns now)

/-! ## Reading the record of effects -/

/-- The indices of the elements `msg->u[i]` read, in order -/
def reads_u : List Event → List Nat
  | [] => []
  | Event.read_u i :: t => i :: reads_u t
  | _ :: t => reads_u t

/-- The indices of the elements `msg->X[i]` read, in order -/
def reads_X : List Event → List Nat
  | [] => []
  | Event.read_X i :: t => i :: reads_X t
  | _ :: t => reads_X t

/-- The frames put on `ref_out`, in order -/
def put_frames : List Event → List Mem
  | [] => []
  | Event.put frame _ :: t => frame :: put_frames t
  | _ :: t => put_frames t

/-! ## Concrete instances used to evaluate the definitions -/

/-- The motor-reference layout with 8-byte host and identity strings -/
def motor_ref_8_8 : VarLayout := sns_msg_motor_ref 8 8

/-- The vector layout with 8-byte host and identity strings -/
def vector_8_8 : VarLayout := sns_msg_vector 8 8

/-- The matrix layout with 8-byte host and identity strings -/
def matrix_8_8 : MatLayout := sns_msg_matrix 8 8

/-- All-zero memory -/
def zero_mem : Mem := fun _ => 0

/-- A message of layout `T` whose count member holds `n`, all other bytes zero -/
def msg_with_count (T : VarLayout) (n : Nat) : Mem := store zero_mem T.offsetof_n 8 n

/-- An environment with 8-byte strings whose collision checker reports a collision -/
def env_collision : Env :=
  { SNS_HOSTNAME_LEN := 8, SNS_IDENT_LEN := 8, now_collision := ⟨100, 0⟩, now_send := ⟨100, 5⟩,
    frame_count := 2, config_count := 1, axpy := fun _ y => y, cl_check := fun _ => true,
    stamp := id, put_status := 0 }

/-- An environment with 8-byte strings whose collision checker reports no collision -/
def env_free : Env := { env_collision with cl_check := fun _ => false }

/-- A context with one joint, reference position 5 and reference velocity 7 -/
def cx_one : cx :=
  { t := ⟨0, 0⟩, n_q := 1, q_act := fun _ => 3, dq_act := fun _ => 4, q_ref := fun _ => 5,
    dq_ref := fun _ => 7, have_q_ref := 0, have_dq_ref := 0 }

/-- A world with an empty thread-local region and no effect yet -/
def world_empty : World := { loc := { live := [], fresh := fun _ _ => zero_mem }, trace := [] }

/-- A motor-reference message with the unknown mode 99 and no element -/
def msg_mode_99 : Mem := store zero_mem env_collision.offsetof_mode 4 99

/-- A motor-reference message of mode POSITION that declares no element -/
def msg_pos_0 : Mem := store zero_mem env_collision.offsetof_mode 4 SNS_MOTOR_MODE_POS

/-- A motor-reference message of mode POSITION with the one element 9 -/
def msg_pos_1 : Mem :=
  store (store (store zero_mem env_collision.offsetof_mode 4 SNS_MOTOR_MODE_POS)
    env_collision.motor_ref.offsetof_n 8 1) env_collision.motor_ref.offsetof_var 8 9

/-- A motor-state message with the one element of position 11 and velocity 22 -/
def msg_state_1 : Mem :=
  store (store (store zero_mem env_collision.motor_state.offsetof_n 8 1)
    env_collision.motor_state.offsetof_var 8 11)
    (env_collision.motor_state.offsetof_var + 8) 8 22

/-- A context with `2^32` joints -/
def cx_2_32 : cx := { cx_one with n_q := 2 ^ 32 }

/-! ## Lemmas on machine arithmetic and memory -/

theorem size_n_eq (T : VarLayout) (hT : T.wf) (n : Nat) :
    size_n T n = (T.sizeof_msg - T.sizeof_var + n * T.sizeof_var) % 2 ^ 64 := by
  obtain ⟨_, _, _, h4, h5⟩ := hT
  unfold size_n size_add size_sub size_mul SIZE_MOD
  unfold PTRDIFF_MOD at h5
  generalize n * T.sizeof_var = k
  omega

theorem size_n_zero (T : VarLayout) (hT : T.wf) :
    size_n T 0 = T.sizeof_msg - T.sizeof_var := by
  rw [size_n_eq T hT]
  obtain ⟨_, _, _, h4, h5⟩ := hT
  unfold PTRDIFF_MOD at h5
  omega

theorem size_n_exact (T : VarLayout) (hT : T.wf) (n : Nat)
    (hfit : T.sizeof_msg - T.sizeof_var + n * T.sizeof_var < 2 ^ 64) :
    size_n T n = T.sizeof_msg - T.sizeof_var + n * T.sizeof_var := by
  rw [size_n_eq T hT]
  exact Nat.mod_eq_of_lt hfit

theorem size_n_lt (T : VarLayout) (n : Nat) : size_n T n < 2 ^ 64 := by
  unfold size_n size_add SIZE_MOD
  exact Nat.mod_lt _ (by norm_num)

theorem load_congr (m m2 : Mem) (w : Nat) :
    ∀ off : Nat, (∀ a, off ≤ a → a < off + w → m a = m2 a) → load m off w = load m2 off w := by
  induction w with
  | zero => intro off _; rfl
  | succ w ih =>
    intro off h
    unfold load
    rw [h off (le_refl _) (by omega), ih (off + 1) (fun a h1 h2 => h a (by omega) (by omega))]

theorem load_lt (m : Mem) (w : Nat) : ∀ off : Nat, load m off w < 256 ^ w := by
  induction w with
  | zero => intro off; simp [load]
  | succ w ih =>
    intro off
    unfold load
    have h1 := ih (off + 1)
    have h2 : m off % 256 < 256 := Nat.mod_lt _ (by norm_num)
    rw [pow_succ]
    omega

theorem load_store_same (w : Nat) :
    ∀ (m : Mem) (off v : Nat), load (store m off w v) off w = v % 256 ^ w := by
  induction w with
  | zero => intro m off v; simp [load, Nat.mod_one]
  | succ w ih =>
    intro m off v
    unfold load
    have h0 : store m off (w + 1) v off = v % 256 := by
      simp [store]
    have h1 : load (store m off (w + 1) v) (off + 1) w
        = load (store m (off + 1) w (v / 256)) (off + 1) w := by
      apply load_congr
      intro a ha hb
      have e : a - off = (a - (off + 1)) + 1 := by omega
      have c1 : off ≤ a ∧ a < off + (w + 1) := ⟨by omega, by omega⟩
      have c2 : off + 1 ≤ a ∧ a < off + 1 + w := ⟨ha, hb⟩
      simp only [store, c1, c2, and_self, if_true]
      rw [e, pow_succ, Nat.mul_comm, Nat.div_div_eq_div_mul]
    rw [h0, h1, ih, pow_succ, Nat.mul_comm (256 ^ w) 256, Nat.mod_mul, Nat.mod_mod]

theorem load_store_disj (m : Mem) (off w v off2 w2 : Nat)
    (h : off2 + w2 ≤ off ∨ off + w ≤ off2) :
    load (store m off w v) off2 w2 = load m off2 w2 := by
  apply load_congr
  intro a ha hb
  have c : ¬ (off ≤ a ∧ a < off + w) := by omega
  simp only [store, c, if_false]

theorem msg_n_lt (T : VarLayout) (msg : Mem) : msg_n T msg < 2 ^ 64 := by
  have h := load_lt msg 8 T.offsetof_n
  unfold msg_n
  norm_num at h ⊢
  exact h

theorem msg_n_msg_with_count (T : VarLayout) (n : Nat) (hn : n < 2 ^ 64) :
    msg_n T (msg_with_count T n) = n := by
  unfold msg_n msg_with_count
  rw [load_store_same]
  norm_num
  omega

theorem msg_n_init (T : VarLayout) (stamp : Mem → Mem) (msg : Mem) (n : Nat)
    (hn : n < 2 ^ 64) : msg_n T (init T stamp msg n) = n := by
  unfold msg_n init
  simp only
  rw [load_store_same]
  norm_num
  omega

theorem check_size_cases (T : VarLayout) (msg : Mem) (frame_size : Nat) :
    (SNS_MSG_CHECK_SIZE T msg frame_size = 1 ∧
        (frame_size < size_n T 0 ∨ frame_size < size T msg)) ∨
    (SNS_MSG_CHECK_SIZE T msg frame_size = 0 ∧
        size_n T 0 ≤ frame_size ∧ size T msg ≤ frame_size) := by
  unfold SNS_MSG_CHECK_SIZE
  by_cases h : frame_size < size_n T 0 ∨ frame_size < size T msg
  · left; simp [h]
  · right; simp only [h, if_false, true_and]; omega

/-- Every layout that `SNS_DEF_MSG_VAR` is instantiated with is well formed, for all string
lengths and element sizes that keep the struct within the object size limit. -/
theorem vararray_layouts_wf (H I sizeof_tf sizeof_tf_dx : Nat)
    (hH : sizeof_sns_msg_header H I + 32 < 2 ^ 63)
    (h1 : 0 < sizeof_tf) (h2 : sizeof_sns_msg_header H I + 8 + sizeof_tf < 2 ^ 63)
    (h3 : 0 < sizeof_tf_dx) (h4 : sizeof_sns_msg_header H I + 8 + sizeof_tf_dx < 2 ^ 63) :
    (sns_msg_log H I).wf ∧ (sns_msg_vector H I).wf ∧ (sns_msg_tf H I sizeof_tf).wf ∧
    (sns_msg_tf_dx H I sizeof_tf_dx).wf ∧ (sns_msg_motor_ref H I).wf ∧
    (sns_msg_motor_state H I).wf ∧ (sns_msg_joystick H I).wf := by
  simp only [VarLayout.wf, sns_msg_log, sns_msg_vector, sns_msg_tf, sns_msg_tf_dx,
    sns_msg_motor_ref, sns_msg_motor_state, sns_msg_joystick, PTRDIFF_MOD]
  omega

theorem motor_ref_wf_bound (H I : Nat) (h : (sns_msg_motor_ref H I).wf) :
    sizeof_sns_msg_header H I + 24 < 2 ^ 63 := by
  obtain ⟨_, _, _, _, h5⟩ := h
  simpa [sns_msg_motor_ref, PTRDIFF_MOD] using h5

theorem region_pop_alloc (reg : aa_mem_region) (sz : Nat) :
    aa_mem_region_pop (aa_mem_region_alloc reg sz).1 (aa_mem_region_alloc reg sz).2.1 = reg := by
  cases reg with
  | mk live fresh =>
    simp [aa_mem_region_pop, aa_mem_region_alloc]

theorem test_for_collisions_eq (E : Env) (c : cx) (w : World) :
    test_for_collisions E c w =
      (if E.cl_check (cblas_daxpy E (to_int c.n_q) c.dq_act c.q_act) then 1 else 0,
       { c with
          t := E.now_collision,
          q_act := fun i => if i < size_mul 8 c.n_q / 8 then c.q_act i
            else cblas_daxpy E (to_int c.n_q) c.dq_act c.q_act i,
          have_q_ref := 0, have_dq_ref := 0 },
       { loc := w.loc,
         trace := w.trace ++ [Event.local_alloc (size_mul 8 c.n_q),
           Event.local_alloc (size_mul (size_mul 14 E.frame_count) 8),
           Event.local_pop (w.loc.live.length + 1), Event.local_pop w.loc.live.length] }) := by
  have hq : (fun i => if i < size_mul 8 c.n_q / 8
        then (if i < size_mul 8 c.n_q / 8 then c.q_act i
          else load (w.loc.fresh w.loc.live.length (size_mul 8 c.n_q)) (8 * i) 8)
        else cblas_daxpy E (to_int c.n_q) c.dq_act c.q_act i)
      = (fun i => if i < size_mul 8 c.n_q / 8 then c.q_act i
          else cblas_daxpy E (to_int c.n_q) c.dq_act c.q_act i) := by
    funext i
    by_cases h : i < size_mul 8 c.n_q / 8 <;> simp [h]
  have hl : ∀ (a b : Nat) (l : List Nat), List.drop (l.length + 1 + 1 - (l.length + 1)) (a :: b :: l)
      = b :: l := by
    intro a b l
    have : l.length + 1 + 1 - (l.length + 1) = 1 := by omega
    rw [this]; rfl
  have hl2 : ∀ (b : Nat) (l : List Nat), List.drop (l.length + 1 - l.length) (b :: l) = l := by
    intro b l
    have : l.length + 1 - l.length = 1 := by omega
    rw [this]; rfl
  cases w with
  | mk loc trace =>
    cases loc with
    | mk live fresh =>
      simp only [test_for_collisions, aa_mem_region_local_alloc, aa_mem_region_local_pop,
        aa_mem_region_alloc, aa_mem_region_pop, List.length_cons, hl, hl2, hq,
        List.append_assoc, List.cons_append, List.nil_append]
      split <;> rfl

theorem load_memcpy_doubles_before (m : Mem) (off : Nat) (src : Nat → Nat) (len off2 w2 : Nat)
    (h : off2 + w2 ≤ off) :
    load (memcpy_doubles m off src len) off2 w2 = load m off2 w2 := by
  apply load_congr
  intro a ha hb
  have c : ¬ (off ≤ a ∧ a < off + len) := by omega
  simp only [memcpy_doubles, c, if_false]

theorem to_int64_int64_bits (x : Int) (h1 : -2 ^ 63 ≤ x) (h2 : x < 2 ^ 63) :
    to_int64 (int64_bits x) = x := by
  unfold to_int64 int64_bits
  have e : ((x % 2 ^ 64).toNat % 2 ^ 64 : Nat) = (x % 2 ^ 64).toNat := by omega
  rw [e]
  split <;> omega

theorem load_set_time_sec (m : Mem) (now : timespec) (d : Int) :
    load (sns_msg_set_time m now d) 0 8 = int64_bits now.tv_sec % 2 ^ 64 := by
  unfold sns_msg_set_time
  simp only
  rw [load_store_disj _ _ _ _ _ _ (Or.inl (by omega)),
    load_store_disj _ _ _ _ _ _ (Or.inl (by omega)), load_store_same]
  norm_num

theorem load_set_time_nsec (m : Mem) (now : timespec) (d : Int) :
    load (sns_msg_set_time m now d) 16 4 = int64_bits now.tv_nsec % 2 ^ 32 := by
  unfold sns_msg_set_time
  simp only
  rw [load_store_disj _ _ _ _ _ _ (Or.inr (by omega)), load_store_same]
  norm_num

theorem load_set_time_dur (m : Mem) (now : timespec) (d : Int) :
    load (sns_msg_set_time m now d) 8 8 = int64_bits d % 2 ^ 64 := by
  unfold sns_msg_set_time
  simp only
  rw [load_store_same]
  norm_num

theorem int64_bits_mod (x : Int) : int64_bits x % 2 ^ 64 = int64_bits x := by
  unfold int64_bits
  omega

theorem get_time_of_loads (msg : Mem) (now : timespec) (d : Int)
    (hs : load msg 0 8 = int64_bits now.tv_sec % 2 ^ 64)
    (hn : load msg 16 4 = int64_bits now.tv_nsec % 2 ^ 32)
    (hd : load msg 8 8 = int64_bits d % 2 ^ 64)
    (h1 : -2 ^ 63 ≤ now.tv_sec) (h2 : now.tv_sec < 2 ^ 63)
    (h3 : 0 ≤ now.tv_nsec) (h4 : now.tv_nsec < 1000000000)
    (h5 : -2 ^ 63 ≤ d) (h6 : d < 2 ^ 63) :
    sns_msg_get_time msg = now ∧ msg_dur_nsec msg = d := by
  constructor
  · unfold sns_msg_get_time
    rw [hs, hn, int64_bits_mod, to_int64_int64_bits _ h1 h2]
    have e : ((int64_bits now.tv_nsec % 2 ^ 32 : Nat) : Int) = now.tv_nsec := by
      unfold int64_bits
      omega
    rw [e]
  · unfold msg_dur_nsec
    rw [hd, int64_bits_mod, to_int64_int64_bits _ h5 h6]

theorem get_time_set_time (m : Mem) (now : timespec) (d : Int)
    (h1 : -2 ^ 63 ≤ now.tv_sec) (h2 : now.tv_sec < 2 ^ 63)
    (h3 : 0 ≤ now.tv_nsec) (h4 : now.tv_nsec < 1000000000)
    (h5 : -2 ^ 63 ≤ d) (h6 : d < 2 ^ 63) :
    sns_msg_get_time (sns_msg_set_time m now d) = now ∧
    msg_dur_nsec (sns_msg_set_time m now d) = d :=
  get_time_of_loads _ now d (load_set_time_sec m now d) (load_set_time_nsec m now d)
    (load_set_time_dur m now d) h1 h2 h3 h4 h5 h6

theorem load_zero_of_bytes (m : Mem) (w : Nat) :
    ∀ off : Nat, (∀ a, off ≤ a → a < off + w → m a = 0) → load m off w = 0 := by
  induction w with
  | zero => intro off _; rfl
  | succ w ih =>
    intro off h
    unfold load
    rw [h off (le_refl _) (by omega), ih (off + 1) (fun a h1 h2 => h a (by omega) (by omega))]

theorem put_frames_append (a b : List Event) :
    put_frames (a ++ b) = put_frames a ++ put_frames b := by
  induction a with
  | nil => rfl
  | cons e t ih => cases e <;> simp [put_frames, ih]

theorem reads_u_append (a b : List Event) : reads_u (a ++ b) = reads_u a ++ reads_u b := by
  induction a with
  | nil => rfl
  | cons e t ih => cases e <;> simp [reads_u, ih]

theorem reads_X_append (a b : List Event) : reads_X (a ++ b) = reads_X a ++ reads_X b := by
  induction a with
  | nil => rfl
  | cons e t ih => cases e <;> simp [reads_X, ih]

theorem reads_X_map (l : List Nat) : reads_X (l.map Event.read_X) = l := by
  induction l with
  | nil => rfl
  | cons i t ih => simp [reads_X, ih]

theorem reads_u_map (l : List Nat) : reads_u (l.map Event.read_u) = l := by
  induction l with
  | nil => rfl
  | cons i t ih => simp [reads_u, ih]

theorem sizeof_header_ge (H I : Nat) : 40 ≤ sizeof_sns_msg_header H I := by
  unfold sizeof_sns_msg_header
  omega

/-- The frame that `send_ref` puts on `ref_out`, with its members -/
theorem send_ref_frame (E : Env) (c : cx) (w : World) :
    ∃ frame : Mem,
      send_ref E c w =
        ({ c with dq_ref := fun i => if i < c.n_q then 0 else c.dq_ref i },
         { loc := w.loc,
           trace := w.trace ++ ([Event.local_alloc (size_n E.motor_ref (to_uint32 c.n_q)),
             Event.put frame (size E.motor_ref frame)]
             ++ ((if E.put_status ≠ ACH_OK then [Event.log LOG_ERR] else [])
             ++ [Event.local_pop w.loc.live.length])) }) ∧
      msg_mode E frame = SNS_MOTOR_MODE_HALT ∧
      msg_n E.motor_ref frame = to_uint32 c.n_q ∧
      (∀ i, i < c.n_q → c.n_q < 2 ^ 32 → msg_u E frame i = 0) ∧
      load frame 0 8 = int64_bits E.now_send.tv_sec % 2 ^ 64 ∧
      load frame 16 4 = int64_bits E.now_send.tv_nsec % 2 ^ 32 ∧
      load frame 8 8 = int64_bits 1000000000 % 2 ^ 64 := by
  have hh := sizeof_header_ge E.SNS_HOSTNAME_LEN E.SNS_IDENT_LEN
  have hvar : E.motor_ref.offsetof_var = E.offsetof_mode + 16 := rfl
  have hn : E.motor_ref.offsetof_n = E.offsetof_mode + 8 := rfl
  have hm : E.offsetof_mode = sizeof_sns_msg_header E.SNS_HOSTNAME_LEN E.SNS_IDENT_LEN := rfl
  refine ⟨memcpy_doubles
    (store (sns_msg_set_time
      (init E.motor_ref E.stamp
        (w.loc.fresh w.loc.live.length (size_n E.motor_ref (to_uint32 c.n_q)))
        (to_uint32 c.n_q)) E.now_send 1000000000) E.offsetof_mode 4 SNS_MOTOR_MODE_HALT)
    E.motor_ref.offsetof_var (fun i => if i < c.n_q then 0 else c.dq_ref i)
    (size_mul 8 c.n_q), ?_, ?_, ?_, ?_, ?_, ?_, ?_⟩
  · have hl2 : ∀ (b : Nat) (l : List Nat), List.drop (l.length + 1 - l.length) (b :: l) = l := by
      intro b l
      have : l.length + 1 - l.length = 1 := by omega
      rw [this]; rfl
    cases w with
    | mk loc trace =>
      cases loc with
      | mk live fresh =>
        by_cases hp : E.put_status = ACH_OK
        · simp [send_ref, local_alloc, region_alloc, aa_mem_region_alloc,
            aa_mem_region_local_pop, aa_mem_region_pop, sns_msg_motor_ref_put, World.emit, hp, hl2]
        · simp [send_ref, local_alloc, region_alloc, aa_mem_region_alloc,
            aa_mem_region_local_pop, aa_mem_region_pop, sns_msg_motor_ref_put, World.emit, hp, hl2]
  · unfold msg_mode
    rw [load_memcpy_doubles_before _ _ _ _ _ _ (by omega), load_store_same]
    rfl
  · unfold msg_n
    rw [load_memcpy_doubles_before _ _ _ _ _ _ (by omega),
      load_store_disj _ _ _ _ _ _ (Or.inr (by omega))]
    unfold sns_msg_set_time
    simp only
    rw [load_store_disj _ _ _ _ _ _ (Or.inr (by omega)),
      load_store_disj _ _ _ _ _ _ (Or.inr (by omega)),
      load_store_disj _ _ _ _ _ _ (Or.inr (by omega))]
    exact msg_n_init E.motor_ref E.stamp _ (to_uint32 c.n_q)
      (by unfold to_uint32; omega)
  · intro i hi hq
    have hfit : 8 * c.n_q < 2 ^ 64 := by omega
    unfold msg_u
    apply load_zero_of_bytes
    intro a ha hb
    have hlen : size_mul 8 c.n_q = 8 * c.n_q := by
      unfold size_mul SIZE_MOD
      exact Nat.mod_eq_of_lt hfit
    have c1 : E.motor_ref.offsetof_var ≤ a ∧ a < E.motor_ref.offsetof_var + size_mul 8 c.n_q := by
      rw [hlen]; omega
    have c2 : (a - E.motor_ref.offsetof_var) / 8 < c.n_q := by omega
    simp only [memcpy_doubles, c1, and_self, if_true, c2, Nat.zero_div, Nat.zero_mod]
  · rw [load_memcpy_doubles_before _ _ _ _ _ _ (by omega),
      load_store_disj _ _ _ _ _ _ (Or.inl (by omega))]
    exact load_set_time_sec _ _ _
  · rw [load_memcpy_doubles_before _ _ _ _ _ _ (by omega),
      load_store_disj _ _ _ _ _ _ (Or.inl (by omega))]
    exact load_set_time_nsec _ _ _
  · rw [load_memcpy_doubles_before _ _ _ _ _ _ (by omega),
      load_store_disj _ _ _ _ _ _ (Or.inl (by omega))]
    exact load_set_time_dur _ _ _

theorem test_for_collisions_flags (E : Env) (c : cx) (w : World) :
    (test_for_collisions E c w).2.1.have_q_ref = 0 ∧
    (test_for_collisions E c w).2.1.have_dq_ref = 0 := by
  rw [test_for_collisions_eq]
  exact ⟨rfl, rfl⟩

theorem send_ref_flags (E : Env) (c : cx) (w : World) :
    (send_ref E c w).1.have_q_ref = c.have_q_ref ∧
    (send_ref E c w).1.have_dq_ref = c.have_dq_ref :=
  ⟨rfl, rfl⟩

theorem handle_ref_in_flags (E : Env) (c : cx) (msg : Mem) (msg_size : Nat) (w : World)
    (h : sns_msg_motor_ref_check_size E msg msg_size = 0) :
    (handle_ref_in E c msg msg_size w).2.1.have_q_ref = 0 ∧
    (handle_ref_in E c msg msg_size w).2.1.have_dq_ref = 0 := by
  unfold handle_ref_in
  rw [if_neg (by rw [h]; decide)]
  simp only
  split_ifs <;>
    simp only [(send_ref_flags _ _ _).1, (send_ref_flags _ _ _).2,
      (test_for_collisions_flags _ _ _).1, (test_for_collisions_flags _ _ _).2, and_self]

theorem daxpy_restored (E : Env) (n_q : Nat) (x y : Nat → Nat) :
    (fun i => if i < size_mul 8 n_q / 8 then y i else cblas_daxpy E (to_int n_q) x y i) = y := by
  funext i
  by_cases h : i < size_mul 8 n_q / 8
  · simp [h]
  · have hk : ¬ ((i : Int) < to_int n_q) := by
      unfold size_mul SIZE_MOD at h
      unfold to_int
      split <;> omega
    simp [h, cblas_daxpy, hk]

/-! ## Claims on the size functions and the size check -/

/-- C1: for every vararray layout, message and frame size the macro `SNS_MSG_CHECK_SIZE`
evaluates to true (the `int` 1) exactly when `frame_size < size_n(0)` or
`frame_size < size(msg)`, and to 0 otherwise; and a motor-reference message that declares 6
elements of 8 bytes has size `size_n(0) + 6*8`, so that a frame of `size_n(0) + 5*8` bytes is
rejected. -/
theorem check_size_rejects_iff (T : VarLayout) (msg : Mem) (frame_size : Nat)
    (H I : Nat) (hM : (sns_msg_motor_ref H I).wf) (m6 : Mem)
    (h6 : msg_n (sns_msg_motor_ref H I) m6 = 6) :
    ((SNS_MSG_CHECK_SIZE T msg frame_size ≠ 0 ↔
        (frame_size < size_n T 0 ∨ frame_size < size T msg)) ∧
      (SNS_MSG_CHECK_SIZE T msg frame_size = 1 ∨ SNS_MSG_CHECK_SIZE T msg frame_size = 0)) ∧
    (sns_msg_motor_ref H I).sizeof_var = 8 ∧
    size (sns_msg_motor_ref H I) m6 = size_n (sns_msg_motor_ref H I) 0 + 6 * 8 ∧
    SNS_MSG_CHECK_SIZE (sns_msg_motor_ref H I) m6
      (size_n (sns_msg_motor_ref H I) 0 + 5 * 8) ≠ 0 := by
  have hb := motor_ref_wf_bound H I hM
  have hz := size_n_zero _ hM
  have hs : size (sns_msg_motor_ref H I) m6 = size_n (sns_msg_motor_ref H I) 0 + 6 * 8 := by
    unfold size
    rw [h6, hz, size_n_exact _ hM 6 (by simp only [sns_msg_motor_ref]; omega)]
    simp only [sns_msg_motor_ref]
  refine ⟨⟨?_, ?_⟩, rfl, hs, ?_⟩
  · rcases check_size_cases T msg frame_size with ⟨h1, h2⟩ | ⟨h1, h2, h3⟩
    · simp [h1, h2]
    · simp only [h1, ne_eq, not_true_eq_false, false_iff]; omega
  · rcases check_size_cases T msg frame_size with ⟨h1, _⟩ | ⟨h1, _⟩
    · exact Or.inl h1
    · exact Or.inr h1
  · rcases check_size_cases (sns_msg_motor_ref H I) m6
      (size_n (sns_msg_motor_ref H I) 0 + 5 * 8) with ⟨h1, _⟩ | ⟨_, _, h3⟩
    · simp [h1]
    · omega

/-- Witness of C1 at the motor-reference layout with 8-byte strings: a frame of 112 bytes
for a message declaring 6 elements. -/
theorem check_size_rejects_iff_witness :
    (SNS_MSG_CHECK_SIZE motor_ref_8_8 (msg_with_count motor_ref_8_8 6) 112 ≠ 0 ↔
      (112 < size_n motor_ref_8_8 0 ∨
        112 < size motor_ref_8_8 (msg_with_count motor_ref_8_8 6))) ∧
    size (sns_msg_motor_ref 8 8) (msg_with_count motor_ref_8_8 6)
      = size_n (sns_msg_motor_ref 8 8) 0 + 6 * 8 :=
  have h := check_size_rejects_iff motor_ref_8_8 (msg_with_count motor_ref_8_8 6) 112 8 8
    (by decide) (msg_with_count motor_ref_8_8 6)
    (msg_n_msg_with_count motor_ref_8_8 6 (by norm_num))
  ⟨h.1.1, h.2.2.1⟩

/-- C2: evaluation at the failing input.  A motor-reference message declaring `2^61`
elements of 8 bytes has `size(msg) = size_n(0)`, because `2^61 * 8` wraps to 0 in `size_t`;
the macro accepts a frame of exactly `size_n(0)` bytes (it evaluates to 0), although the
fixed prefix plus the declared elements, as natural numbers, exceed the frame. -/
theorem check_size_accepts_wrapped_count :
    motor_ref_8_8.wf ∧
    msg_n motor_ref_8_8 (msg_with_count motor_ref_8_8 (2 ^ 61)) = 2 ^ 61 ∧
    size motor_ref_8_8 (msg_with_count motor_ref_8_8 (2 ^ 61)) = size_n motor_ref_8_8 0 ∧
    SNS_MSG_CHECK_SIZE motor_ref_8_8 (msg_with_count motor_ref_8_8 (2 ^ 61))
      (size_n motor_ref_8_8 0) = 0 ∧
    size_n motor_ref_8_8 0 <
      (motor_ref_8_8.sizeof_msg - motor_ref_8_8.sizeof_var)
        + msg_n motor_ref_8_8 (msg_with_count motor_ref_8_8 (2 ^ 61))
          * motor_ref_8_8.sizeof_var := by
  have hn := msg_n_msg_with_count motor_ref_8_8 (2 ^ 61) (by norm_num)
  have hs : size motor_ref_8_8 (msg_with_count motor_ref_8_8 (2 ^ 61))
      = size_n motor_ref_8_8 0 := by
    unfold size; rw [hn]; decide
  refine ⟨by decide, hn, hs, ?_, ?_⟩
  · unfold SNS_MSG_CHECK_SIZE; rw [hs]; simp
  · rw [hn]; decide

/-- C3, counterexample: for the vector layout `size_n(2^61)` and `size_n(0)` are the same
`size_t` value, so their difference is 0, while `(2^61 - 0) * 8` is `2^64`. -/
theorem size_n_difference_wraps :
    vector_8_8.wf ∧ (0 : Nat) < 2 ^ 61 ∧
    size_n vector_8_8 (2 ^ 61) - size_n vector_8_8 0 = 0 ∧
    (2 ^ 61 - 0) * vector_8_8.sizeof_var = 2 ^ 64 ∧
    size_n vector_8_8 (2 ^ 61) - size_n vector_8_8 0 ≠ (2 ^ 61 - 0) * vector_8_8.sizeof_var := by
  decide

/-- C3, amended: for every vararray layout and all counts `n1 < n2` the difference
`size_n(n2) - size_n(n1)` equals `(n2 - n1) * element_size` when both sides are computed in
`size_t` (modulo `2^64`); and it equals it as natural numbers whenever
`sizeof(struct) - element_size + n2 * element_size` is below `2^64`. -/
theorem size_n_linear (T : VarLayout) (hT : T.wf) (n1 n2 : Nat) (h : n1 < n2) :
    size_sub (size_n T n2) (size_n T n1) = size_mul (n2 - n1) T.sizeof_var ∧
    (T.sizeof_msg - T.sizeof_var + n2 * T.sizeof_var < 2 ^ 64 →
      size_n T n2 - size_n T n1 = (n2 - n1) * T.sizeof_var) := by
  obtain ⟨d, rfl⟩ : ∃ d, n2 = n1 + d := ⟨n2 - n1, by omega⟩
  have hd : n1 + d - n1 = d := by omega
  rw [hd]
  constructor
  · rw [size_n_eq T hT, size_n_eq T hT, Nat.add_mul]
    unfold size_sub size_mul SIZE_MOD
    generalize n1 * T.sizeof_var = x
    generalize d * T.sizeof_var = y
    omega
  · intro hfit
    have hle : n1 * T.sizeof_var ≤ (n1 + d) * T.sizeof_var :=
      Nat.mul_le_mul_right _ (by omega)
    rw [size_n_exact T hT _ hfit, size_n_exact T hT n1 (by omega), Nat.add_mul]
    omega

/-- Witness of the amended C3 at the vector layout, counts 2 and 5 -/
theorem size_n_linear_witness :
    size_sub (size_n vector_8_8 5) (size_n vector_8_8 2) = size_mul (5 - 2) vector_8_8.sizeof_var ∧
    (vector_8_8.sizeof_msg - vector_8_8.sizeof_var + 5 * vector_8_8.sizeof_var < 2 ^ 64 →
      size_n vector_8_8 5 - size_n vector_8_8 2 = (5 - 2) * vector_8_8.sizeof_var) :=
  size_n_linear vector_8_8 (by decide) 2 5 (by decide)

/-- C4: for every vararray layout and every count `n` (a `size_t`), after `init(msg, n)`
the count member of the message is `n` and `size(msg)` is `size_n(n)`; and `size(m)` is
`size_n(m.n)` for every message `m`. -/
theorem init_count_and_size (T : VarLayout) (stamp : Mem → Mem) (msg : Mem) (n : Nat)
    (hn : n < 2 ^ 64) :
    msg_n T (init T stamp msg n) = n ∧
    size T (init T stamp msg n) = size_n T n ∧
    (∀ m : Mem, size T m = size_n T (msg_n T m)) := by
  have h1 : msg_n T (init T stamp msg n) = n := msg_n_init T stamp msg n hn
  refine ⟨h1, ?_, fun m => rfl⟩
  unfold size
  rw [h1]

/-- Witness of C4: a vector message initialised for 3 elements over arbitrary memory -/
theorem init_count_and_size_witness :
    msg_n vector_8_8 (init vector_8_8 id (fun _ => 255) 3) = 3 ∧
    size vector_8_8 (init vector_8_8 id (fun _ => 255) 3) = size_n vector_8_8 3 :=
  have h := init_count_and_size vector_8_8 id (fun _ => 255) 3 (by norm_num)
  ⟨h.1, h.2.1⟩

/-- C7, counterexample: a motor-reference message declaring `2^61 - 1` elements has
`size(msg) = size_n(0) - 8`, and the macro rejects (evaluates to 1 for) the frame whose size
is exactly `size_n(msg.n)`, since that is below `size_n(0)`. -/
theorem check_size_rejects_declared_size :
    motor_ref_8_8.wf ∧
    msg_n motor_ref_8_8 (msg_with_count motor_ref_8_8 (2 ^ 61 - 1)) = 2 ^ 61 - 1 ∧
    size_n motor_ref_8_8 (2 ^ 61 - 1) + 8 = size_n motor_ref_8_8 0 ∧
    SNS_MSG_CHECK_SIZE motor_ref_8_8 (msg_with_count motor_ref_8_8 (2 ^ 61 - 1))
      (size_n motor_ref_8_8 (msg_n motor_ref_8_8 (msg_with_count motor_ref_8_8 (2 ^ 61 - 1))))
      = 1 := by
  have hn := msg_n_msg_with_count motor_ref_8_8 (2 ^ 61 - 1) (by norm_num)
  refine ⟨by decide, hn, by decide, ?_⟩
  rw [hn]
  have h : size_n motor_ref_8_8 (2 ^ 61 - 1) < size_n motor_ref_8_8 0 := by decide
  rcases check_size_cases motor_ref_8_8 (msg_with_count motor_ref_8_8 (2 ^ 61 - 1))
    (size_n motor_ref_8_8 (2 ^ 61 - 1)) with ⟨h1, _⟩ | ⟨_, h2, _⟩
  · exact h1
  · omega

/-- C7, amended: for every vararray layout and message the macro rejects every frame size
below `size_n(0)`; it accepts the frame whose size is exactly `size_n(msg.n)` if and only if
`size_n(0) ≤ size_n(msg.n)`, which holds whenever
`sizeof(struct) - element_size + msg.n * element_size` is below `2^64`. -/
theorem check_size_boundary (T : VarLayout) (hT : T.wf) (msg : Mem) :
    (∀ frame_size, frame_size < size_n T 0 → SNS_MSG_CHECK_SIZE T msg frame_size = 1) ∧
    (SNS_MSG_CHECK_SIZE T msg (size_n T (msg_n T msg)) = 0 ↔
      size_n T 0 ≤ size_n T (msg_n T msg)) ∧
    (T.sizeof_msg - T.sizeof_var + msg_n T msg * T.sizeof_var < 2 ^ 64 →
      SNS_MSG_CHECK_SIZE T msg (size_n T (msg_n T msg)) = 0) := by
  have key : SNS_MSG_CHECK_SIZE T msg (size_n T (msg_n T msg)) = 0 ↔
      size_n T 0 ≤ size_n T (msg_n T msg) := by
    rcases check_size_cases T msg (size_n T (msg_n T msg)) with ⟨h1, h2⟩ | ⟨h1, h2, _⟩
    · unfold size at h2
      simp only [h1, one_ne_zero, false_iff]; omega
    · simp [h1, h2]
  refine ⟨?_, key, ?_⟩
  · intro fs hfs
    rcases check_size_cases T msg fs with ⟨h1, _⟩ | ⟨_, h2, _⟩
    · exact h1
    · omega
  · intro hfit
    rw [key, size_n_zero T hT, size_n_exact T hT _ hfit]
    omega

/-- Witness of the amended C7: a motor-reference message declaring 6 elements -/
theorem check_size_boundary_witness :
    (∀ frame_size, frame_size < size_n motor_ref_8_8 0 →
      SNS_MSG_CHECK_SIZE motor_ref_8_8 (msg_with_count motor_ref_8_8 6) frame_size = 1) ∧
    SNS_MSG_CHECK_SIZE motor_ref_8_8 (msg_with_count motor_ref_8_8 6)
      (size_n motor_ref_8_8 (msg_n motor_ref_8_8 (msg_with_count motor_ref_8_8 6))) = 0 :=
  have h := check_size_boundary motor_ref_8_8 (by decide) (msg_with_count motor_ref_8_8 6)
  ⟨h.1, h.2.2 (by rw [msg_n_msg_with_count motor_ref_8_8 6 (by norm_num)]; decide)⟩

/-- C8: evaluation at the failing input.  For an empty motor-reference message delivered in
a frame of 10 bytes, which is smaller than `size_n(0)`, the macro evaluates to 1, while the
comment on the macro says that it returns 0 if `frame_size` is too small. -/
theorem check_size_too_small_is_one :
    (10 : Nat) < size_n motor_ref_8_8 0 ∧
    SNS_MSG_CHECK_SIZE motor_ref_8_8 zero_mem 10 = 1 ∧
    SNS_MSG_CHECK_SIZE motor_ref_8_8 zero_mem 10 ≠ 0 := by
  have h : (10 : Nat) < size_n motor_ref_8_8 0 := by decide
  refine ⟨h, ?_, ?_⟩ <;> simp [SNS_MSG_CHECK_SIZE, h]

/-! ## Claims on initialisation, allocation and the matrix size -/

/-- C5, counterexample: `init` of a vector message for `2^61` elements over memory whose
bytes are all 255 zero-fills `size_n(2^61)` bytes, which is only the fixed prefix; the first
byte of element 0 is still 255 afterwards, and `heap_alloc(2^61)` requests no byte for any
element. -/
theorem init_wrapped_count_leaves_element :
    vector_8_8.wf ∧
    size_n vector_8_8 (2 ^ 61) = vector_8_8.offsetof_var ∧
    msg_n vector_8_8 (init vector_8_8 id (fun _ => 255) (2 ^ 61)) = 2 ^ 61 ∧
    init vector_8_8 id (fun _ => 255) (2 ^ 61) vector_8_8.offsetof_var = 255 ∧
    (heap_alloc vector_8_8 id (fun _ => fun _ => 255) (2 ^ 61)).request
      = vector_8_8.offsetof_var := by
  refine ⟨by decide, by decide, ?_, by decide, by decide⟩
  exact (msg_n_init vector_8_8 id (fun _ => 255) (2 ^ 61) (by norm_num))

/-- C5, amended: for every vararray layout and every count `n` for which
`sizeof(struct) - element_size + n * element_size` is below `2^64`, `init(msg, n)` zero-fills
exactly `size_n(n)` bytes, then stamps the header, then sets the count: afterwards every
header byte is what `sns_msg_header_fill` wrote on the zeroed message, the count is `n`, every
other byte before the end of the `n`-th element is zero, and every byte from offset
`size_n(n)` on is untouched; `heap_alloc(n)`, `region_alloc(reg, n)` and `local_alloc(n)`
each request exactly `size_n(n)` bytes and return the block initialised in this way. -/
theorem init_zero_fill_stamp_count (T : VarLayout) (hT : T.wf) (stamp : Mem → Mem)
    (msg : Mem) (n : Nat)
    (hfit : T.sizeof_msg - T.sizeof_var + n * T.sizeof_var < 2 ^ 64)
    (malloc : Nat → Mem) (reg : aa_mem_region) :
    (∀ a, a < T.sizeof_header →
      init T stamp msg n a = stamp (memset msg 0 (size_n T n)) a % 256) ∧
    msg_n T (init T stamp msg n) = n ∧
    (∀ a, T.sizeof_header ≤ a → a < T.offsetof_var + n * T.sizeof_var →
      ¬ (T.offsetof_n ≤ a ∧ a < T.offsetof_n + 8) → init T stamp msg n a = 0) ∧
    (∀ a, size_n T n ≤ a → init T stamp msg n a = msg a) ∧
    ((heap_alloc T stamp malloc n).request = size_n T n ∧
      (heap_alloc T stamp malloc n).msg = init T stamp (malloc (size_n T n)) n) ∧
    ((region_alloc T stamp reg n).1.live = size_n T n :: reg.live ∧
      (region_alloc T stamp reg n).2.2
        = init T stamp (reg.fresh reg.live.length (size_n T n)) n) ∧
    local_alloc T stamp reg n = region_alloc T stamp reg n := by
  have hsz := size_n_exact T hT n hfit
  obtain ⟨h1, h2, h3, h4, h5⟩ := hT
  have hn : n < 2 ^ 64 := by
    have : n * 1 ≤ n * T.sizeof_var := Nat.mul_le_mul_left n h3
    omega
  refine ⟨?_, msg_n_init T stamp msg n hn, ?_, ?_, ⟨rfl, rfl⟩, ⟨rfl, rfl⟩, rfl⟩
  · intro a ha
    have c : ¬ (T.offsetof_n ≤ a ∧ a < T.offsetof_n + 8) := by omega
    simp only [init, store, c, if_false, sns_msg_header_fill, ha, if_true]
  · intro a ha hb hc
    have c1 : ¬ a < T.sizeof_header := by omega
    have c2 : a < size_n T n := by omega
    simp only [init, store, hc, if_false, sns_msg_header_fill, c1, memset, c2, if_true]
  · intro a ha
    have c0 : ¬ (T.offsetof_n ≤ a ∧ a < T.offsetof_n + 8) := by omega
    have c1 : ¬ a < T.sizeof_header := by omega
    have c2 : ¬ a < size_n T n := by omega
    simp only [init, store, c0, if_false, sns_msg_header_fill, c1, memset, c2]

/-- Witness of the amended C5: a vector message initialised for 3 elements -/
theorem init_zero_fill_stamp_count_witness :
    msg_n vector_8_8 (init vector_8_8 id (fun _ => 255) 3) = 3 ∧
    (∀ a, size_n vector_8_8 3 ≤ a → init vector_8_8 id (fun _ => 255) 3 a = 255) ∧
    (heap_alloc vector_8_8 id (fun _ => zero_mem) 3).request = size_n vector_8_8 3 :=
  have h := init_zero_fill_stamp_count vector_8_8 (by decide) id (fun _ => 255) 3 (by decide)
    (fun _ => zero_mem) ⟨[], fun _ _ => zero_mem⟩
  ⟨h.2.1, h.2.2.2.1, h.2.2.2.2.1.1⟩

/-- C6, counterexample: for a matrix declaring `2^32` rows and `2^32` columns of 8-byte
reals, `sns_msg_matrix_size_mn` returns `P = sns_msg_matrix_size_mn(0, 0)`, not
`P + rows*cols*8`. -/
theorem matrix_size_wraps :
    matrix_8_8.wf ∧
    sns_msg_matrix_size_mn matrix_8_8 (2 ^ 32) (2 ^ 32) = sns_msg_matrix_size_mn matrix_8_8 0 0 ∧
    sns_msg_matrix_size_mn matrix_8_8 (2 ^ 32) (2 ^ 32)
      ≠ sns_msg_matrix_size_mn matrix_8_8 0 0 + 2 ^ 32 * 2 ^ 32 * matrix_8_8.sizeof_x := by
  decide

/-- C6, amended: for the matrix message and all rows, cols, with
`P = sns_msg_matrix_size_mn(0, 0) = sizeof(struct sns_msg_matrix) - element_size`:
`sns_msg_matrix_size_mn(rows, cols)` is `P + rows*cols*element_size` reduced modulo `2^64`,
hence equal to `P + rows*cols*element_size` whenever that is below `2^64`;
`sns_msg_matrix_size(msg)` is `sns_msg_matrix_size_mn(msg.rows, msg.cols)`; a 3x4 matrix of
8-byte reals occupies `P + 96` bytes and a 0x0 matrix exactly `P` bytes. -/
theorem matrix_size_formula (M : MatLayout) (hM : M.wf) (rows cols : Nat) :
    sns_msg_matrix_size_mn M 0 0 = M.sizeof_msg - M.sizeof_x ∧
    sns_msg_matrix_size_mn M rows cols
      = (sns_msg_matrix_size_mn M 0 0 + rows * cols * M.sizeof_x) % 2 ^ 64 ∧
    (sns_msg_matrix_size_mn M 0 0 + rows * cols * M.sizeof_x < 2 ^ 64 →
      sns_msg_matrix_size_mn M rows cols
        = sns_msg_matrix_size_mn M 0 0 + rows * cols * M.sizeof_x) ∧
    (∀ msg : Mem, sns_msg_matrix_size M msg
      = sns_msg_matrix_size_mn M (load msg M.offsetof_rows 8) (load msg M.offsetof_cols 8)) ∧
    (M.sizeof_x = 8 →
      sns_msg_matrix_size_mn M 3 4 = sns_msg_matrix_size_mn M 0 0 + 96) := by
  obtain ⟨h1, h2, h3, h4⟩ := hM
  unfold PTRDIFF_MOD at h4
  have hz : sns_msg_matrix_size_mn M 0 0 = M.sizeof_msg - M.sizeof_x := by
    unfold sns_msg_matrix_size_mn size_add size_sub size_mul SIZE_MOD
    simp only [Nat.mul_zero, Nat.zero_mod, Nat.add_zero]
    omega
  have hmod : ∀ r c, sns_msg_matrix_size_mn M r c
      = (sns_msg_matrix_size_mn M 0 0 + r * c * M.sizeof_x) % 2 ^ 64 := by
    intro r c
    rw [hz]
    unfold sns_msg_matrix_size_mn size_add size_sub size_mul SIZE_MOD
    have e : r * c * M.sizeof_x = M.sizeof_x * r * c := by ring
    rw [e, Nat.mod_mul_mod]
    generalize M.sizeof_x * r * c = k
    omega
  refine ⟨hz, hmod rows cols, ?_, fun msg => rfl, ?_⟩
  · intro hfit
    rw [hmod rows cols]
    exact Nat.mod_eq_of_lt hfit
  · intro h8
    rw [hmod 3 4, hz, h8]
    omega

/-- Witness of the amended C6: the matrix layout with 8-byte strings, 3 rows and 4 columns -/
theorem matrix_size_formula_witness :
    sns_msg_matrix_size_mn matrix_8_8 0 0 = matrix_8_8.sizeof_msg - matrix_8_8.sizeof_x ∧
    sns_msg_matrix_size_mn matrix_8_8 3 4 = sns_msg_matrix_size_mn matrix_8_8 0 0 + 96 :=
  have h := matrix_size_formula matrix_8_8 (by decide) 3 4
  ⟨h.1, h.2.2.2.2 rfl⟩

/-! ## Claims on the watchdog handlers -/

/-- C10: for every watchdog context and every received frame that is smaller than the
minimum empty size or smaller than the size implied by its declared count, `handle_ref_in`
and `handle_state` discard the frame: the context is returned with every member unchanged,
the only effect is one `SNS_LOG( LOG_ERR, ... )` call (no element is read, nothing is
allocated, nothing is put on `ref_out`), and the handler returns `ACH_OK`. -/
theorem rejected_frame_is_discarded (E : Env) (c : cx) (w : World)
    (ref_msg : Mem) (ref_size : Nat) (state_msg : Mem) (state_size : Nat)
    (href : ref_size < size_n E.motor_ref 0 ∨ ref_size < size E.motor_ref ref_msg)
    (hstate : state_size < size_n E.motor_state 0 ∨
      state_size < size E.motor_state state_msg) :
    sns_msg_motor_ref_check_size E ref_msg ref_size ≠ 0 ∧
    sns_msg_motor_state_check_size E state_msg state_size ≠ 0 ∧
    handle_ref_in E c ref_msg ref_size w
      = (ACH_OK, c, { loc := w.loc, trace := w.trace ++ [Event.log LOG_ERR] }) ∧
    handle_state E c state_msg state_size w
      = (ACH_OK, c, { loc := w.loc, trace := w.trace ++ [Event.log LOG_ERR] }) := by
  have h1 : sns_msg_motor_ref_check_size E ref_msg ref_size = 1 := by
    unfold sns_msg_motor_ref_check_size
    rcases check_size_cases E.motor_ref ref_msg ref_size with ⟨h, _⟩ | ⟨_, h2, h3⟩
    · exact h
    · omega
  have h2 : sns_msg_motor_state_check_size E state_msg state_size = 1 := by
    unfold sns_msg_motor_state_check_size
    rcases check_size_cases E.motor_state state_msg state_size with ⟨h, _⟩ | ⟨_, h2, h3⟩
    · exact h
    · omega
  refine ⟨by rw [h1]; decide, by rw [h2]; decide, ?_, ?_⟩
  · simp [handle_ref_in, h1, World.emit]
  · simp [handle_state, h2, World.emit]

/-- Witness of C10: frames of 10 bytes, smaller than an empty message of either type -/
theorem rejected_frame_is_discarded_witness :
    handle_ref_in env_free cx_one msg_mode_99 10 world_empty
      = (ACH_OK, cx_one,
          { loc := world_empty.loc, trace := world_empty.trace ++ [Event.log LOG_ERR] }) ∧
    handle_state env_free cx_one zero_mem 10 world_empty
      = (ACH_OK, cx_one,
          { loc := world_empty.loc, trace := world_empty.trace ++ [Event.log LOG_ERR] }) :=
  (rejected_frame_is_discarded env_free cx_one world_empty msg_mode_99 10 zero_mem 10
    (Or.inl (by decide)) (Or.inl (by decide))).2.2

/-! ## Claims on the header time -/

/-- C11: for every header and every instant `now`, `sns_msg_is_expired(header, now)` is true
if and only if `now >= creation_time + validity_duration_ns`, the creation time being
(`time.sec`, `time.nsec`) and the duration `time.dur_nsec`: false for every `now` strictly
before the deadline, true at the deadline and after it.  For a header whose time was set to
100.000 s with a duration of 1_000_000_000 ns it is false at 100.5 s, true at 101.000000000 s
and true at 101.000000001 s. -/
theorem is_expired_iff_deadline (header : Mem) (now : timespec) (m : Mem) :
    (sns_msg_is_expired header now = true ↔
      timespec_ns now ≥ timespec_ns (sns_msg_get_time header) + msg_dur_nsec header) ∧
    (timespec_ns now < timespec_ns (sns_msg_get_time header) + msg_dur_nsec header ↔
      sns_msg_is_expired header now = false) ∧
    (sns_msg_get_time (sns_msg_set_time m ⟨100, 0⟩ 1000000000) = ⟨100, 0⟩ ∧
      msg_dur_nsec (sns_msg_set_time m ⟨100, 0⟩ 1000000000) = 1000000000) ∧
    sns_msg_is_expired (sns_msg_set_time m ⟨100, 0⟩ 1000000000) ⟨100, 500000000⟩ = false ∧
    sns_msg_is_expired (sns_msg_set_time m ⟨100, 0⟩ 1000000000) ⟨101, 0⟩ = true ∧
    sns_msg_is_expired (sns_msg_set_time m ⟨100, 0⟩ 1000000000) ⟨101, 1⟩ = true := by
  have hst := get_time_set_time m ⟨100, 0⟩ 1000000000 (by norm_num) (by norm_num)
    (by norm_num) (by norm_num) (by norm_num) (by norm_num)
  refine ⟨?_, ?_, hst, ?_, ?_, ?_⟩
  · unfold sns_msg_is_expired
    simp only [decide_eq_true_eq, ge_iff_le]
  · unfold sns_msg_is_expired
    simp only [decide_eq_false_iff_not, not_le]
  · unfold sns_msg_is_expired
    rw [hst.1, hst.2]
    decide
  · unfold sns_msg_is_expired
    rw [hst.1, hst.2]
    decide
  · unfold sns_msg_is_expired
    rw [hst.1, hst.2]
    decide

/-! ## Claims on the watchdog: reads, the halt command, state updates and flags -/

/-- C12: evaluation at the failing input.  A context with one joint receives a
motor-reference message of mode POSITION that declares no element, in a frame of exactly
`size_n(0)` bytes; the size check accepts it and `handle_ref_in` reads `u[0]`, whose index is
not below the declared count and whose bytes start at the end of the frame. -/
theorem handle_ref_in_reads_beyond_count :
    sns_msg_motor_ref_check_size env_free msg_pos_0 (size_n env_free.motor_ref 0) = 0 ∧
    msg_mode env_free msg_pos_0 = SNS_MOTOR_MODE_POS ∧
    msg_n env_free.motor_ref msg_pos_0 = 0 ∧
    cx_one.n_q = 1 ∧
    reads_u (handle_ref_in env_free cx_one msg_pos_0 (size_n env_free.motor_ref 0)
      world_empty).2.2.trace = [0] ∧
    env_free.motor_ref.offsetof_var + 8 * 0 = size_n env_free.motor_ref 0 := by
  decide

/-- C13, counterexample: for a context with `2^32` joints the halt command that `send_ref`
puts on `ref_out` declares 0 elements, not `2^32`: the block is allocated for
`(uint32_t)n_q = 0` elements and the frame put is the `size_n(0)` bytes of the fixed
prefix. -/
theorem halt_command_count_truncated :
    cx_2_32.n_q = 2 ^ 32 ∧
    to_uint32 cx_2_32.n_q = 0 ∧
    (put_frames (send_ref env_free cx_2_32 world_empty).2.trace).map (msg_n env_free.motor_ref)
      = [0] ∧
    (put_frames (send_ref env_free cx_2_32 world_empty).2.trace).map (size env_free.motor_ref)
      = [size_n env_free.motor_ref 0] := by
  decide

/-- C13, amended: for every watchdog context with joint count `n_q` below `2^32`, `send_ref`
allocates `size_n(n_q)` bytes and puts exactly those bytes on `ref_out` as one
motor-reference message whose mode is HALT (value 1), whose declared count equals `n_q`,
whose `n_q` reference values, all inside the block, are all 0.0, and whose header carries
creation time = the current time and validity duration = exactly 1_000_000_000
nanoseconds. -/
theorem halt_command (E : Env) (c : cx) (w : World)
    (hwf : E.motor_ref.wf) (hq : c.n_q < 2 ^ 32)
    (h1 : -2 ^ 63 ≤ E.now_send.tv_sec) (h2 : E.now_send.tv_sec < 2 ^ 63)
    (h3 : 0 ≤ E.now_send.tv_nsec) (h4 : E.now_send.tv_nsec < 1000000000) :
    ∃ frame : Mem,
      (send_ref E c w).2.trace =
        w.trace ++ ([Event.local_alloc (size_n E.motor_ref c.n_q),
          Event.put frame (size_n E.motor_ref c.n_q)]
          ++ ((if E.put_status ≠ ACH_OK then [Event.log LOG_ERR] else [])
          ++ [Event.local_pop w.loc.live.length])) ∧
      put_frames (send_ref E c w).2.trace = put_frames w.trace ++ [frame] ∧
      msg_mode E frame = SNS_MOTOR_MODE_HALT ∧ SNS_MOTOR_MODE_HALT = 1 ∧
      msg_n E.motor_ref frame = c.n_q ∧
      (∀ i, i < c.n_q → msg_u E frame i = 0 ∧
        E.motor_ref.offsetof_var + 8 * i + 8 ≤ size_n E.motor_ref c.n_q) ∧
      sns_msg_get_time frame = E.now_send ∧
      msg_dur_nsec frame = 1000000000 := by
  obtain ⟨frame, hs, hmode, hn, hu, l1, l2, l3⟩ := send_ref_frame E c w
  have ht := get_time_of_loads frame E.now_send 1000000000 l1 l2 l3 h1 h2 h3 h4
    (by norm_num) (by norm_num)
  have hu32 : to_uint32 c.n_q = c.n_q := by
    unfold to_uint32
    exact Nat.mod_eq_of_lt hq
  rw [hu32] at hn hs
  have hsize : size E.motor_ref frame = size_n E.motor_ref c.n_q := by
    unfold size
    rw [hn]
  rw [hsize] at hs
  have hb := motor_ref_wf_bound E.SNS_HOSTNAME_LEN E.SNS_IDENT_LEN hwf
  have hfit : E.motor_ref.sizeof_msg - E.motor_ref.sizeof_var + c.n_q * E.motor_ref.sizeof_var
      < 2 ^ 64 := by
    simp only [Env.motor_ref, sns_msg_motor_ref]
    omega
  have hexact := size_n_exact E.motor_ref hwf c.n_q hfit
  have htr : (send_ref E c w).2.trace =
      w.trace ++ ([Event.local_alloc (size_n E.motor_ref c.n_q),
        Event.put frame (size_n E.motor_ref c.n_q)]
        ++ ((if E.put_status ≠ ACH_OK then [Event.log LOG_ERR] else [])
        ++ [Event.local_pop w.loc.live.length])) := by
    rw [hs]
  refine ⟨frame, htr, ?_, hmode, rfl, hn, ?_, ht.1, ht.2⟩
  · rw [htr]
    by_cases hp : E.put_status = ACH_OK
    · simp [put_frames_append, put_frames, hp]
    · simp [put_frames_append, put_frames, hp]
  · intro i hi
    refine ⟨hu i hi hq, ?_⟩
    rw [hexact]
    simp only [Env.motor_ref, sns_msg_motor_ref]
    omega

/-- Witness of the amended C13: a one-joint context at the instant 100.000000005 s -/
theorem halt_command_witness :
    ∃ frame : Mem,
      put_frames (send_ref env_free cx_one world_empty).2.trace
        = put_frames world_empty.trace ++ [frame] ∧
      msg_mode env_free frame = 1 ∧
      msg_n env_free.motor_ref frame = 1 ∧
      msg_u env_free frame 0 = 0 ∧
      sns_msg_get_time frame = ⟨100, 5⟩ ∧
      msg_dur_nsec frame = 1000000000 :=
  have h := halt_command env_free cx_one world_empty (by decide) (by decide) (by decide)
    (by decide) (by decide) (by decide)
  h.elim fun frame hf =>
    ⟨frame, hf.2.1, hf.2.2.1, hf.2.2.2.2.1, (hf.2.2.2.2.2.1 0 (by decide)).1,
      hf.2.2.2.2.2.2.1, hf.2.2.2.2.2.2.2⟩

/-- C14: for every watchdog context and every motor-state message that passed the size
check, `handle_state` returns `ACH_OK`, reads exactly the elements `X[i]` with
`i < min(n_q, declared count)`, sets `q_act[i]` to `X[i].pos` and `dq_act[i]` to `X[i].vel`
for those indices, leaves `q_act[i]` and `dq_act[i]` unchanged for every other index, and
leaves `q_ref`, `dq_ref`, `have_q_ref` and `have_dq_ref` unchanged. -/
theorem handle_state_effect (E : Env) (c : cx) (msg : Mem) (msg_size : Nat) (w : World)
    (hsz : sns_msg_motor_state_check_size E msg msg_size = 0) :
    (handle_state E c msg msg_size w).1 = ACH_OK ∧
    (∀ i, i < min c.n_q (msg_n E.motor_state msg) →
      (handle_state E c msg msg_size w).2.1.q_act i = msg_X_pos E msg i ∧
      (handle_state E c msg msg_size w).2.1.dq_act i = msg_X_vel E msg i) ∧
    (∀ i, ¬ i < min c.n_q (msg_n E.motor_state msg) →
      (handle_state E c msg msg_size w).2.1.q_act i = c.q_act i ∧
      (handle_state E c msg msg_size w).2.1.dq_act i = c.dq_act i) ∧
    (handle_state E c msg msg_size w).2.1.q_ref = c.q_ref ∧
    (handle_state E c msg msg_size w).2.1.dq_ref = c.dq_ref ∧
    (handle_state E c msg msg_size w).2.1.have_q_ref = c.have_q_ref ∧
    (handle_state E c msg msg_size w).2.1.have_dq_ref = c.have_dq_ref ∧
    reads_X (handle_state E c msg msg_size w).2.2.trace
      = reads_X w.trace ++ List.range (min c.n_q (msg_n E.motor_state msg)) := by
  have e : handle_state E c msg msg_size w =
      (ACH_OK,
       { c with
          q_act := fun i => if i < min c.n_q (msg_n E.motor_state msg) then msg_X_pos E msg i
            else c.q_act i,
          dq_act := fun i => if i < min c.n_q (msg_n E.motor_state msg) then msg_X_vel E msg i
            else c.dq_act i },
       { loc := w.loc,
         trace := w.trace ++ [Event.log LOG_DEBUG]
           ++ (List.range (min c.n_q (msg_n E.motor_state msg))).map Event.read_X }) := by
    unfold handle_state
    rw [if_neg (by rw [hsz]; decide)]
    rfl
  rw [e]
  refine ⟨rfl, ?_, ?_, rfl, rfl, rfl, rfl, ?_⟩
  · intro i hi
    simp only [hi, if_true, and_self]
  · intro i hi
    simp only [hi, if_false, and_self]
  · simp only [reads_X_append, reads_X_map, reads_X, List.append_nil]

/-- Witness of C14: a one-joint context and a motor-state message with one element -/
theorem handle_state_effect_witness :
    (handle_state env_free cx_one msg_state_1 (size_n env_free.motor_state 1) world_empty).1
      = ACH_OK ∧
    (handle_state env_free cx_one msg_state_1 (size_n env_free.motor_state 1)
      world_empty).2.1.q_act 0 = msg_X_pos env_free msg_state_1 0 ∧
    msg_X_pos env_free msg_state_1 0 = 11 ∧
    (handle_state env_free cx_one msg_state_1 (size_n env_free.motor_state 1)
      world_empty).2.1.dq_act 0 = msg_X_vel env_free msg_state_1 0 ∧
    msg_X_vel env_free msg_state_1 0 = 22 :=
  have h := handle_state_effect env_free cx_one msg_state_1 (size_n env_free.motor_state 1)
    world_empty (by decide)
  ⟨h.1, (h.2.1 0 (by decide)).1, by decide, (h.2.1 0 (by decide)).2, by decide⟩

/-- C15: for every watchdog context, `test_for_collisions` returns 1 when the collision
query on the Euler-step prediction reports a collision and 0 otherwise, and on both paths
the array `q_act` on return equals `q_act` on entry element for element, `dq_act`, `q_ref`
and `dq_ref` are untouched, and the two thread-local allocations (`q_act_copy`, then `TF`) are
released in last-allocated-first-released order (`TF` first), which leaves the region as it
was on entry. -/
theorem test_for_collisions_frame (E : Env) (c : cx) (w : World) :
    (test_for_collisions E c w).1
      = (if E.cl_check (cblas_daxpy E (to_int c.n_q) c.dq_act c.q_act) then 1 else 0) ∧
    (test_for_collisions E c w).2.1.q_act = c.q_act ∧
    (test_for_collisions E c w).2.1.dq_act = c.dq_act ∧
    (test_for_collisions E c w).2.1.q_ref = c.q_ref ∧
    (test_for_collisions E c w).2.1.dq_ref = c.dq_ref ∧
    (aa_mem_region_local_alloc w (size_mul 8 c.n_q)).2.1 = w.loc.live.length ∧
    (aa_mem_region_local_alloc (aa_mem_region_local_alloc w (size_mul 8 c.n_q)).1
      (size_mul (size_mul 14 E.frame_count) 8)).2.1 = w.loc.live.length + 1 ∧
    (test_for_collisions E c w).2.2.trace
      = w.trace ++ [Event.local_alloc (size_mul 8 c.n_q),
          Event.local_alloc (size_mul (size_mul 14 E.frame_count) 8),
          Event.local_pop (w.loc.live.length + 1), Event.local_pop w.loc.live.length] ∧
    (test_for_collisions E c w).2.2.loc = w.loc := by
  rw [test_for_collisions_eq]
  refine ⟨rfl, ?_, rfl, rfl, rfl, rfl, ?_, rfl, rfl⟩
  · exact daxpy_restored E c.n_q c.dq_act c.q_act
  · simp [aa_mem_region_local_alloc, aa_mem_region_alloc]

/-- C16: for every watchdog context and every motor-reference message that passes the size
check, whatever its mode, `have_q_ref` and `have_dq_ref` are both 0 when `handle_ref_in`
returns; and if both flags are 0 before a call of `handle_ref_in` or `handle_state`, for any
frame, accepted or rejected, both are 0 after it, so no other value is observable between
handler invocations. -/
theorem flags_cleared (E : Env) (c : cx) (msg : Mem) (msg_size : Nat) (w : World)
    (hsz : sns_msg_motor_ref_check_size E msg msg_size = 0) :
    ((handle_ref_in E c msg msg_size w).2.1.have_q_ref = 0 ∧
      (handle_ref_in E c msg msg_size w).2.1.have_dq_ref = 0) ∧
    (∀ (c2 : cx) (msg2 : Mem) (size2 : Nat) (w2 : World),
      c2.have_q_ref = 0 → c2.have_dq_ref = 0 →
      ((handle_ref_in E c2 msg2 size2 w2).2.1.have_q_ref = 0 ∧
        (handle_ref_in E c2 msg2 size2 w2).2.1.have_dq_ref = 0) ∧
      ((handle_state E c2 msg2 size2 w2).2.1.have_q_ref = 0 ∧
        (handle_state E c2 msg2 size2 w2).2.1.have_dq_ref = 0)) := by
  refine ⟨handle_ref_in_flags E c msg msg_size w hsz, ?_⟩
  intro c2 msg2 size2 w2 hq hd
  constructor
  · by_cases h : sns_msg_motor_ref_check_size E msg2 size2 = 0
    · exact handle_ref_in_flags E c2 msg2 size2 w2 h
    · simp only [handle_ref_in, h, ne_eq, not_false_eq_true, if_true, hq, hd, and_self]
  · unfold handle_state
    split_ifs
    · exact ⟨hq, hd⟩
    · exact ⟨hq, hd⟩

/-- Witness of C16: a POSITION message with one element, accepted, with and without a
reported collision. -/
theorem flags_cleared_witness :
    (handle_ref_in env_free cx_one msg_pos_1 (size_n env_free.motor_ref 1)
      world_empty).2.1.have_q_ref = 0 ∧
    (handle_ref_in env_collision cx_one msg_pos_1 (size_n env_collision.motor_ref 1)
      world_empty).2.1.have_q_ref = 0 ∧
    (handle_ref_in env_collision cx_one msg_pos_1 (size_n env_collision.motor_ref 1)
      world_empty).2.1.q_ref 0 = 9 :=
  ⟨(flags_cleared env_free cx_one msg_pos_1 (size_n env_free.motor_ref 1) world_empty
      (by decide)).1.1,
   (flags_cleared env_collision cx_one msg_pos_1 (size_n env_collision.motor_ref 1) world_empty
      (by decide)).1.1,
   by decide⟩

end SNS
